import Mathlib

/-!
Verification development for a plant-disease-detection web backend
(Express routes in `src/server/routes.ts`, in-memory storage in
`src/server/storage.ts`, AI wrapper in `src/server/openai-service.ts`).

The embedding is shallow: TypeScript records become Lean structures, the
`MemStorage` class becomes a structure with explicit state passing, route
handlers become pure functions from storage state, session and request to
an outcome.  A TypeScript optional value (`T | null | undefined`) is
modelled by `JsOpt`; stored nullable columns (`T | null`) by `Option`.
`Date` values are modelled by their `getTime()` value as a `Nat`, threaded
into creation operations as a `now` parameter.  JSON numbers are modelled
by `Rat`.
-/

namespace PlantApp

/-- A JavaScript value of type `T | null | undefined`, as it appears in
input records and parsed JSON: the field may be missing (`undef`),
explicitly `null`, or present (`val`). -/
inductive JsOpt (α : Type) where
  | undef : JsOpt α
  | null : JsOpt α
  | val (a : α) : JsOpt α
deriving Repr, DecidableEq

/-- The JavaScript nullish-coalescing expression `x ?? null`, landing in a
`T | null` column modelled by `Option`. -/
def JsOpt.orNull : JsOpt α → Option α
  | .undef => none
  | .null => none
  | .val a => some a

/-- The JavaScript nullish-coalescing expression `x ?? d` for a non-null
default `d`. -/
def JsOpt.orD : JsOpt α → α → α
  | .undef, d => d
  | .null, d => d
  | .val a, _ => a

/-- JavaScript truthiness test for a string-typed field: `undefined`,
`null` and the empty string are falsy. -/
def JsOpt.strFalsy : JsOpt String → Bool
  | .undef => true
  | .null => true
  | .val s => s = ""

/-- The JavaScript expression `x || d` on a string-typed field. -/
def JsOpt.strOr (x : JsOpt String) (d : String) : String :=
  match x with
  | .val s => if s = "" then d else s
  | _ => d

/-- The JavaScript expression `x || d` on a number-typed field (`0` is
falsy). -/
def JsOpt.numOr (x : JsOpt Rat) (d : Rat) : Rat :=
  match x with
  | .val q => if q = 0 then d else q
  | _ => d

/-! ### Data model (spec section 3; `@shared/schema` is not under `src/`)

Modelled from the spec: the record shapes come from spec section 3
("User (username, password, optional email/name), PlantAnalysis (owning
user, image path, diagnosis, confidence, severity, healthy flag,
description, treatment, timestamp), DiseaseReport (location, description,
coordinates, timestamp), UserFeedback (analysis reference, comment,
timestamp)") together with the field accesses in `storage.ts` and
`routes.ts`; the schema file itself is not in the repository snapshot. -/

/-- A stored user row. -/
structure User where
  id : Nat
  username : String
  password : String
  email : Option String
  firstName : Option String
  lastName : Option String
  createdAt : Option Nat
deriving Repr, DecidableEq

/-- Modelled from the spec: the `InsertUser` shape (required username and
password, optional email and names), from spec section 3 and the fields
read by `MemStorage.createUser`. -/
structure InsertUser where
  username : String
  password : String
  email : JsOpt String := .undef
  firstName : JsOpt String := .undef
  lastName : JsOpt String := .undef
deriving Repr, DecidableEq

/-- A stored plant-analysis row. -/
structure PlantAnalysis where
  id : Nat
  userId : Nat
  imagePath : String
  diagnosis : String
  confidence : Rat
  severity : Option String
  isHealthy : Bool
  description : Option String
  treatment : Option String
  createdAt : Option Nat
deriving Repr, DecidableEq

/-- Modelled from the spec: the `InsertPlantAnalysis` shape, from spec
section 3 and the fields read by `MemStorage.createPlantAnalysis` and
supplied by the `POST /api/analyses` handler. -/
structure InsertPlantAnalysis where
  userId : Nat
  imagePath : String
  diagnosis : String
  confidence : Rat
  severity : JsOpt String := .undef
  isHealthy : JsOpt Bool := .undef
  description : JsOpt String := .undef
  treatment : JsOpt String := .undef
deriving Repr, DecidableEq

/-- A stored disease-report row. -/
structure DiseaseReport where
  id : Nat
  userId : Nat
  location : String
  description : Option String
  latitude : Option Rat
  longitude : Option Rat
  createdAt : Option Nat
deriving Repr, DecidableEq

/-- Modelled from the spec: the `InsertDiseaseReport` shape, from spec
section 3 and the fields read by `MemStorage.createDiseaseReport`; the
route adds `userId` from the session. -/
structure InsertDiseaseReport where
  userId : Nat
  location : String
  description : JsOpt String := .undef
  latitude : JsOpt Rat := .undef
  longitude : JsOpt Rat := .undef
deriving Repr, DecidableEq

/-- A stored user-feedback row. -/
structure UserFeedback where
  id : Nat
  userId : Nat
  analysisId : Nat
  comment : Option String
  createdAt : Option Nat
deriving Repr, DecidableEq

/-- Modelled from the spec: the `InsertUserFeedback` shape (analysis
reference, optional comment), from spec section 3 and the fields read by
`MemStorage.createUserFeedback`; the route adds `userId` from the
session. -/
structure InsertUserFeedback where
  userId : Nat
  analysisId : Nat
  comment : JsOpt String := .undef
deriving Repr, DecidableEq

/-! ### JavaScript `Map` operations

A `Map<number, T>` is a list of key-value pairs in insertion order;
`Map.set` overwrites an existing key in place, else appends. -/

/-- Embeds `Map.get k`. -/
def mapGet (m : List (Nat × α)) (k : Nat) : Option α :=
  (m.find? (fun p => p.1 = k)).map (·.2)

/-- Embeds `Map.set k v`: replace in place when `k` is present, else append. -/
def mapSet (m : List (Nat × α)) (k : Nat) (v : α) : List (Nat × α) :=
  match m with
  | [] => [(k, v)]
  | p :: rest => if p.1 = k then (k, v) :: rest else p :: mapSet rest k v

/-- Embeds `Array.from(m.values())`: values in insertion order. -/
def mapValues (m : List (Nat × α)) : List α := m.map (·.2)

/-! ### MemStorage (`src/server/storage.ts`, class `MemStorage`) -/

/-- The private state of a `MemStorage` instance: four id-keyed maps and
four id counters. -/
structure MemStorage where
  users : List (Nat × User)
  plantAnalyses : List (Nat × PlantAnalysis)
  diseaseReports : List (Nat × DiseaseReport)
  userFeedback : List (Nat × UserFeedback)
  currentUserId : Nat
  currentAnalysisId : Nat
  currentReportId : Nat
  currentFeedbackId : Nat
deriving Repr, DecidableEq

/-- Embeds `new MemStorage()`: empty maps, all counters start at 1. -/
def MemStorage.init : MemStorage :=
  { users := []
    plantAnalyses := []
    diseaseReports := []
    userFeedback := []
    currentUserId := 1
    currentAnalysisId := 1
    currentReportId := 1
    currentFeedbackId := 1 }

/-- Embeds `MemStorage.getUser`. -/
def MemStorage.getUser (s : MemStorage) (id : Nat) : Option User :=
  mapGet s.users id

/-- Embeds `MemStorage.getUserByUsername`: linear scan over the values. -/
def MemStorage.getUserByUsername (s : MemStorage) (username : String) :
    Option User :=
  (mapValues s.users).find? (fun user => user.username = username)

/-- Embeds `MemStorage.createUser`: take the current counter as id, increment the
counter, default `email`/`firstName`/`lastName` with `?? null`, stamp
`createdAt`, and store the row. -/
def MemStorage.createUser (s : MemStorage) (now : Nat)
    (insertUser : InsertUser) : User × MemStorage :=
  let id := s.currentUserId
  let user : User :=
    { id := id
      username := insertUser.username
      password := insertUser.password
      createdAt := some now
      email := insertUser.email.orNull
      firstName := insertUser.firstName.orNull
      lastName := insertUser.lastName.orNull }
  (user, { s with users := mapSet s.users id user, currentUserId := id + 1 })

/-- Embeds `MemStorage.createPlantAnalysis`: fresh id from the analysis counter,
`description`/`severity`/`treatment` default with `?? null`, `isHealthy`
with `?? false`. -/
def MemStorage.createPlantAnalysis (s : MemStorage) (now : Nat)
    (insertAnalysis : InsertPlantAnalysis) : PlantAnalysis × MemStorage :=
  let id := s.currentAnalysisId
  let analysis : PlantAnalysis :=
    { id := id
      userId := insertAnalysis.userId
      imagePath := insertAnalysis.imagePath
      diagnosis := insertAnalysis.diagnosis
      confidence := insertAnalysis.confidence
      createdAt := some now
      description := insertAnalysis.description.orNull
      severity := insertAnalysis.severity.orNull
      treatment := insertAnalysis.treatment.orNull
      isHealthy := insertAnalysis.isHealthy.orD false }
  (analysis,
    { s with plantAnalyses := mapSet s.plantAnalyses id analysis
             currentAnalysisId := id + 1 })

/-- The sort key `r.createdAt?.getTime() || 0` used by the list queries. -/
def createdKey (c : Option Nat) : Nat := c.getD 0

/-- Embeds `Array.prototype.sort` with comparator
`(a, b) => (b.createdAt?.getTime() || 0) - (a.createdAt?.getTime() || 0)`,
i.e. a stable sort into descending `createdAt` order. -/
def sortByCreatedDesc (key : α → Option Nat) (l : List α) : List α :=
  l.mergeSort (fun a b => createdKey (key b) ≤ createdKey (key a))

/-- Embeds `MemStorage.getPlantAnalysesByUser`: filter by owner, newest first. -/
def MemStorage.getPlantAnalysesByUser (s : MemStorage) (userId : Nat) :
    List PlantAnalysis :=
  sortByCreatedDesc (·.createdAt)
    ((mapValues s.plantAnalyses).filter (fun analysis => analysis.userId = userId))

/-- Embeds `MemStorage.getPlantAnalysisById`. -/
def MemStorage.getPlantAnalysisById (s : MemStorage) (id : Nat) :
    Option PlantAnalysis :=
  mapGet s.plantAnalyses id

/-- Embeds `MemStorage.createDiseaseReport`: fresh id from the report counter,
`description`/`latitude`/`longitude` default with `?? null`. -/
def MemStorage.createDiseaseReport (s : MemStorage) (now : Nat)
    (insertReport : InsertDiseaseReport) : DiseaseReport × MemStorage :=
  let id := s.currentReportId
  let report : DiseaseReport :=
    { id := id
      userId := insertReport.userId
      location := insertReport.location
      createdAt := some now
      description := insertReport.description.orNull
      latitude := insertReport.latitude.orNull
      longitude := insertReport.longitude.orNull }
  (report,
    { s with diseaseReports := mapSet s.diseaseReports id report
             currentReportId := id + 1 })

/-- Embeds `MemStorage.getDiseaseReports`: all reports, newest first. -/
def MemStorage.getDiseaseReports (s : MemStorage) : List DiseaseReport :=
  sortByCreatedDesc (·.createdAt) (mapValues s.diseaseReports)

/-- Embeds `MemStorage.getDiseaseReportsByLocation`: case-insensitive substring
filter on `location`, newest first. -/
def MemStorage.getDiseaseReportsByLocation (s : MemStorage)
    (location : String) : List DiseaseReport :=
  sortByCreatedDesc (·.createdAt)
    ((mapValues s.diseaseReports).filter
      (fun report => (report.location.toLower.splitOn location.toLower).length > 1
        || location = ""))

/-- Embeds `MemStorage.createUserFeedback`: fresh id from the feedback counter,
`comment` defaults with `?? null`; no check that the referenced analysis
exists. -/
def MemStorage.createUserFeedback (s : MemStorage) (now : Nat)
    (insertFeedback : InsertUserFeedback) : UserFeedback × MemStorage :=
  let id := s.currentFeedbackId
  let feedback : UserFeedback :=
    { id := id
      userId := insertFeedback.userId
      analysisId := insertFeedback.analysisId
      createdAt := some now
      comment := insertFeedback.comment.orNull }
  (feedback,
    { s with userFeedback := mapSet s.userFeedback id feedback
             currentFeedbackId := id + 1 })

/-- Embeds `MemStorage.getFeedbackByAnalysis`. -/
def MemStorage.getFeedbackByAnalysis (s : MemStorage) (analysisId : Nat) :
    List UserFeedback :=
  (mapValues s.userFeedback).filter (fun feedback => feedback.analysisId = analysisId)

/-! ### AI wrapper (`src/server/openai-service.ts`, `analyzePlantImage`)

The network call itself is external; the embedding covers the wrapper's
post-processing of the model's JSON response: the object produced by
`JSON.parse(response.choices[0].message.content || '{}')`, with each field
possibly missing, null, or carrying a value of its expected JSON type. -/

/-- The parsed JSON object of the model's response.  `JSON.parse('{}')`
(the fallback for empty content) yields every field `undef`. -/
structure ParsedAi where
  disease : JsOpt String := .undef
  confidence : JsOpt Rat := .undef
  severity : JsOpt String := .undef
  isHealthy : JsOpt Bool := .undef
  description : JsOpt String := .undef
  treatment : JsOpt String := .undef
deriving Repr, DecidableEq

/-- The `DiseaseDetectionResult` returned by `analyzePlantImage`.
`severity` keeps its `JsOpt` shape: the code passes the parsed value
through (possibly `undefined`), mapping only the string `'null'` to
`null`. -/
structure DiseaseDetectionResult where
  disease : String
  confidence : Rat
  severity : JsOpt String
  isHealthy : Bool
  description : String
  treatment : String
deriving Repr, DecidableEq

/-- The result object built by `analyzePlantImage` from the parsed JSON:
`disease`/`description`/`treatment` fall back on falsy values via `||`,
`confidence` is `Math.max(0, Math.min(1, result.confidence || 0))`,
`severity` maps the literal string `'null'` to `null`, and `isHealthy` is
the strict comparison `result.isHealthy === true`. -/
def analyzePlantImageResult (result : ParsedAi) : DiseaseDetectionResult :=
  { disease := result.disease.strOr "Unknown"
    confidence := max 0 (min 1 (result.confidence.numOr 0))
    severity := if result.severity = JsOpt.val "null" then .null else result.severity
    isHealthy := result.isHealthy = JsOpt.val true
    description := result.description.strOr "No description available"
    treatment := result.treatment.strOr "No treatment recommendations available" }

/-! ### Route layer (`src/server/routes.ts`, `registerRoutes`)

Each handler is a pure function of the storage state, the session and the
request inputs.  Body validation by the zod schemas is modelled by an
`Option`: `none` means `schema.parse` threw (the handler's catch branch
answers 400).  The external AI call is a parameter of the upload route
(`Except` carries its failure).  Every path that invokes a method of
`storage` sets `storageCalled`. -/

/-- The express-session data the routes declare: `userId?: number`. -/
structure Session where
  userId : Option Nat
deriving Repr, DecidableEq

/-- A JSON response body, one constructor per payload shape the routes
send.  `user` carries the sanitized record (`password: undefined`). -/
inductive ResponseBody where
  | message (m : String)
  | user (id : Nat) (username : String) (email firstName lastName : Option String)
      (createdAt : Option Nat)
  | analysis (a : PlantAnalysis)
  | analyses (l : List PlantAnalysis)
  | report (r : DiseaseReport)
  | reports (l : List DiseaseReport)
  | feedback (f : UserFeedback)
  | stats (totalAnalyzed healthyPlants diseasesDetected daysActive : Nat)
deriving Repr, DecidableEq

/-- Embeds `{ ...user, password: undefined }`. -/
def sanitizeUser (u : User) : ResponseBody :=
  .user u.id u.username u.email u.firstName u.lastName u.createdAt

/-- What a handler produces: an HTTP status, a JSON body, the storage
state after the request, the session after the request, and whether any
`storage.*` method was invoked. -/
structure RouteOutcome where
  status : Nat
  body : ResponseBody
  state : MemStorage
  session : Session
  storageCalled : Bool
deriving Repr, DecidableEq

/-- Parsed body of `POST /api/auth/signin` (`signinSchema`). -/
structure SigninData where
  username : String
  password : String
deriving Repr, DecidableEq

/-- Parsed body of `POST /api/auth/signup` (`signupSchema`); the handler
drops `confirmPassword` before storing. -/
structure SignupData where
  username : String
  password : String
  confirmPassword : String
  email : JsOpt String := .undef
  firstName : JsOpt String := .undef
  lastName : JsOpt String := .undef
deriving Repr, DecidableEq

/-- Embeds `const { confirmPassword, ...userData } = signupSchema.parse(...)`. -/
def SignupData.userData (d : SignupData) : InsertUser :=
  { username := d.username
    password := d.password
    email := d.email
    firstName := d.firstName
    lastName := d.lastName }

/-- The uploaded file of `POST /api/analyses` after multer (the handler
uses only its original name and, through the AI call, its bytes). -/
structure UploadedFile where
  originalname : String
deriving Repr, DecidableEq

/-- Request body of `POST /api/disease-reports` before the route adds
`userId` (validation outcome is the surrounding `Option`). -/
structure DiseaseReportBody where
  location : String
  description : JsOpt String := .undef
  latitude : JsOpt Rat := .undef
  longitude : JsOpt Rat := .undef
deriving Repr, DecidableEq

/-- Request body of `POST /api/feedback` before the route adds
`userId`. -/
structure FeedbackBody where
  analysisId : Nat
  comment : JsOpt String := .undef
deriving Repr, DecidableEq

/-- One request to a registered route, with the route's inputs. -/
inductive ApiRequest where
  | signin (body : Option SigninData)
  | signup (body : Option SignupData)
  | signout
  | getAuthUser
  | postAnalysis (file : Option UploadedFile)
      (ai : Except String DiseaseDetectionResult)
  | getAnalyses
  | getAnalysisById (idParam : Option Nat)
  | postDiseaseReport (body : Option DiseaseReportBody)
  | getDiseaseReports
  | postFeedback (body : Option FeedbackBody)
  | getStats
deriving Repr

/-- Handler of `POST /api/auth/signin`. -/
def signinRoute (s : MemStorage) (session : Session)
    (body : Option SigninData) : RouteOutcome :=
  match body with
  | none => ⟨400, .message "Invalid request", s, session, false⟩
  | some d =>
    match s.getUserByUsername d.username with
    | none => ⟨401, .message "Invalid credentials", s, session, true⟩
    | some user =>
      if user.password ≠ d.password then
        ⟨401, .message "Invalid credentials", s, session, true⟩
      else
        ⟨200, sanitizeUser user, s, ⟨some user.id⟩, true⟩

/-- Handler of `POST /api/auth/signup`. -/
def signupRoute (s : MemStorage) (session : Session) (now : Nat)
    (body : Option SignupData) : RouteOutcome :=
  match body with
  | none => ⟨400, .message "Invalid request", s, session, false⟩
  | some d =>
    match s.getUserByUsername d.userData.username with
    | some _ => ⟨400, .message "Username already exists", s, session, true⟩
    | none =>
      let created := s.createUser now d.userData
      ⟨200, sanitizeUser created.1, created.2, ⟨some created.1.id⟩, true⟩

/-- Handler of `POST /api/auth/signout`: `req.session.destroy`. -/
def signoutRoute (s : MemStorage) (_session : Session) : RouteOutcome :=
  ⟨200, .message "Signed out successfully", s, ⟨none⟩, false⟩

/-- Handler of `GET /api/auth/user`. -/
def getAuthUserRoute (s : MemStorage) (session : Session) : RouteOutcome :=
  match session.userId with
  | none => ⟨401, .message "Not authenticated", s, session, false⟩
  | some uid =>
    match s.getUser uid with
    | none => ⟨401, .message "User not found", s, session, true⟩
    | some user => ⟨200, sanitizeUser user, s, session, true⟩

/-- Handler of `POST /api/analyses`: session check, file check, AI call, one
`createPlantAnalysis` call with the AI result's fields. -/
def postAnalysisRoute (s : MemStorage) (session : Session) (now : Nat)
    (file : Option UploadedFile)
    (ai : Except String DiseaseDetectionResult) : RouteOutcome :=
  match session.userId with
  | none => ⟨401, .message "Not authenticated", s, session, false⟩
  | some uid =>
    match file with
    | none => ⟨400, .message "No image file provided", s, session, false⟩
    | some f =>
      match ai with
      | .error e =>
        ⟨500, .message ("Failed to analyze image: " ++ e), s, session, false⟩
      | .ok aiResult =>
        let created := s.createPlantAnalysis now
          { userId := uid
            imagePath := "/uploads/" ++ f.originalname
            diagnosis := aiResult.disease
            confidence := aiResult.confidence
            severity := aiResult.severity
            isHealthy := .val aiResult.isHealthy
            description := .val aiResult.description
            treatment := .val aiResult.treatment }
        ⟨200, .analysis created.1, created.2, session, true⟩

/-- Handler of `GET /api/analyses`. -/
def getAnalysesRoute (s : MemStorage) (session : Session) : RouteOutcome :=
  match session.userId with
  | none => ⟨401, .message "Not authenticated", s, session, false⟩
  | some uid =>
    ⟨200, .analyses (s.getPlantAnalysesByUser uid), s, session, true⟩

/-- Handler of `GET /api/analyses/:id`; `idParam` is the `parseInt` result (`none`
for `NaN`, under which the map lookup finds nothing). -/
def getAnalysisByIdRoute (s : MemStorage) (session : Session)
    (idParam : Option Nat) : RouteOutcome :=
  match session.userId with
  | none => ⟨401, .message "Not authenticated", s, session, false⟩
  | some uid =>
    let analysis := idParam.bind s.getPlantAnalysisById
    match analysis with
    | none => ⟨404, .message "Analysis not found", s, session, true⟩
    | some a =>
      if a.userId ≠ uid then
        ⟨404, .message "Analysis not found", s, session, true⟩
      else
        ⟨200, .analysis a, s, session, true⟩

/-- Handler of `POST /api/disease-reports`. -/
def postDiseaseReportRoute (s : MemStorage) (session : Session) (now : Nat)
    (body : Option DiseaseReportBody) : RouteOutcome :=
  match session.userId with
  | none => ⟨401, .message "Not authenticated", s, session, false⟩
  | some uid =>
    match body with
    | none => ⟨400, .message "Invalid request", s, session, false⟩
    | some b =>
      let created := s.createDiseaseReport now
        { userId := uid
          location := b.location
          description := b.description
          latitude := b.latitude
          longitude := b.longitude }
      ⟨200, .report created.1, created.2, session, true⟩

/-- Handler of `GET /api/disease-reports`: no session check before the storage
call. -/
def getDiseaseReportsRoute (s : MemStorage) (session : Session) :
    RouteOutcome :=
  ⟨200, .reports s.getDiseaseReports, s, session, true⟩

/-- Handler of `POST /api/feedback`: session check, body validation, one
`createUserFeedback` call; no lookup of the referenced analysis. -/
def postFeedbackRoute (s : MemStorage) (session : Session) (now : Nat)
    (body : Option FeedbackBody) : RouteOutcome :=
  match session.userId with
  | none => ⟨401, .message "Not authenticated", s, session, false⟩
  | some uid =>
    match body with
    | none => ⟨400, .message "Invalid request", s, session, false⟩
    | some b =>
      let created := s.createUserFeedback now
        { userId := uid
          analysisId := b.analysisId
          comment := b.comment }
      ⟨200, .feedback created.1, created.2, session, true⟩

/-- Handler of `GET /api/stats`. -/
def getStatsRoute (s : MemStorage) (session : Session) : RouteOutcome :=
  match session.userId with
  | none => ⟨401, .message "Not authenticated", s, session, false⟩
  | some uid =>
    let analyses := s.getPlantAnalysesByUser uid
    let healthyCount := (analyses.filter (fun a => a.isHealthy)).length
    let diseasedCount := analyses.length - healthyCount
    ⟨200, .stats analyses.length healthyCount diseasedCount 15, s, session, true⟩

/-- Dispatch of one request to the registered routes. -/
def handle (s : MemStorage) (session : Session) (now : Nat) :
    ApiRequest → RouteOutcome
  | .signin body => signinRoute s session body
  | .signup body => signupRoute s session now body
  | .signout => signoutRoute s session
  | .getAuthUser => getAuthUserRoute s session
  | .postAnalysis file ai => postAnalysisRoute s session now file ai
  | .getAnalyses => getAnalysesRoute s session
  | .getAnalysisById idParam => getAnalysisByIdRoute s session idParam
  | .postDiseaseReport body => postDiseaseReportRoute s session now body
  | .getDiseaseReports => getDiseaseReportsRoute s session
  | .postFeedback body => postFeedbackRoute s session now body
  | .getStats => getStatsRoute s session

/-! ### Helper lemmas -/

/-- A string-typed `x || d` yields the default exactly on falsy values. -/
theorem JsOpt.strOr_of_falsy (x : JsOpt String) (d : String)
    (h : x.strFalsy = true) : x.strOr d = d := by
  cases x with
  | undef => rfl
  | null => rfl
  | val s =>
    simp only [JsOpt.strFalsy, decide_eq_true_eq] at h
    simp [JsOpt.strOr, h]

/-- A string-typed `x || d` keeps a non-empty present value. -/
theorem JsOpt.strOr_val (s d : String) (h : s ≠ "") :
    (JsOpt.val s).strOr d = s := by
  simp [JsOpt.strOr, h]

/-- Looking up the key just written by `Map.set` returns the new value. -/
theorem mapGet_mapSet_self (m : List (Nat × α)) (k : Nat) (v : α) :
    mapGet (mapSet m k v) k = some v := by
  induction m with
  | nil => simp [mapGet, mapSet, List.find?]
  | cons p rest ih =>
    by_cases h : p.1 = k
    · simp [mapGet, mapSet, h, List.find?]
    · simpa [mapGet, mapSet, h, List.find?] using ih

/-! ### Claims -/

/-- C9: for every model response, the confidence value returned by
`analyzePlantImage` lies in the closed interval `[0, 1]`: it is clamped
with `Math.max(0, Math.min(1, ...))` and defaults to `0` when absent. -/
theorem ai_confidence_clamped_to_unit_interval (result : ParsedAi) :
    0 ≤ (analyzePlantImageResult result).confidence ∧
    (analyzePlantImageResult result).confidence ≤ 1 := by
  constructor
  · exact le_max_left 0 _
  · exact max_le (by norm_num) (min_le_left 1 _)

/-- C5: the AI wrapper parses the model's JSON response with default
fallbacks: `disease`, `description` and `treatment` fall back to their
default strings exactly when the parsed field is absent or falsy and are
passed through otherwise, and `isHealthy` is `true` exactly when the
parsed `isHealthy` field is literally `true`. -/
theorem analyze_parses_with_fallbacks (result : ParsedAi) :
    (result.disease.strFalsy = true →
      (analyzePlantImageResult result).disease = "Unknown") ∧
    (∀ s, result.disease = JsOpt.val s → s ≠ "" →
      (analyzePlantImageResult result).disease = s) ∧
    (result.description.strFalsy = true →
      (analyzePlantImageResult result).description = "No description available") ∧
    (∀ s, result.description = JsOpt.val s → s ≠ "" →
      (analyzePlantImageResult result).description = s) ∧
    (result.treatment.strFalsy = true →
      (analyzePlantImageResult result).treatment =
        "No treatment recommendations available") ∧
    (∀ s, result.treatment = JsOpt.val s → s ≠ "" →
      (analyzePlantImageResult result).treatment = s) ∧
    ((analyzePlantImageResult result).isHealthy = true ↔
      result.isHealthy = JsOpt.val true) := by
  refine ⟨fun h => JsOpt.strOr_of_falsy _ _ h,
    fun s hs hne => ?_,
    fun h => JsOpt.strOr_of_falsy _ _ h,
    fun s hs hne => ?_,
    fun h => JsOpt.strOr_of_falsy _ _ h,
    fun s hs hne => ?_, ?_⟩
  · simp [analyzePlantImageResult, hs, JsOpt.strOr_val s _ hne]
  · simp [analyzePlantImageResult, hs, JsOpt.strOr_val s _ hne]
  · simp [analyzePlantImageResult, hs, JsOpt.strOr_val s _ hne]
  · simp [analyzePlantImageResult]

/-- Witness for C5: on the empty parsed object (the `'{}'` fallback) all
three string fields take their defaults and `isHealthy` is `false`; a
non-empty parsed `disease` is passed through. -/
theorem analyze_parses_with_fallbacks_witness :
    (analyzePlantImageResult {}).disease = "Unknown" ∧
    (analyzePlantImageResult { disease := JsOpt.val "Leaf Spot" }).disease
      = "Leaf Spot" ∧
    ((analyzePlantImageResult { isHealthy := JsOpt.val true }).isHealthy
      = true) :=
  ⟨(analyze_parses_with_fallbacks {}).1 rfl,
   (analyze_parses_with_fallbacks { disease := JsOpt.val "Leaf Spot" }).2.1
     "Leaf Spot" rfl (by decide),
   (analyze_parses_with_fallbacks
     { isHealthy := JsOpt.val true }).2.2.2.2.2.2.mpr rfl⟩

/-- C4: optional fields are defaulted at creation time: `createUser`
stores `email`/`firstName`/`lastName` as null when absent,
`createPlantAnalysis` stores `description`/`severity`/`treatment` as null
and `isHealthy` as `false` when absent, `createDiseaseReport` stores
`description`/`latitude`/`longitude` as null when absent,
`createUserFeedback` stores `comment` as null when absent; supplied fields
are stored unchanged. -/
theorem create_defaults_optional_fields (s : MemStorage) (now : Nat)
    (du : InsertUser) (da : InsertPlantAnalysis) (dr : InsertDiseaseReport)
    (df : InsertUserFeedback) (x : String) (q : Rat) (b : Bool) :
    ((s.createUser now { du with email := .undef }).1.email = none ∧
     (s.createUser now { du with email := .val x }).1.email = some x ∧
     (s.createUser now { du with firstName := .undef }).1.firstName = none ∧
     (s.createUser now { du with firstName := .val x }).1.firstName = some x ∧
     (s.createUser now { du with lastName := .undef }).1.lastName = none ∧
     (s.createUser now { du with lastName := .val x }).1.lastName = some x ∧
     (s.createUser now du).1.username = du.username ∧
     (s.createUser now du).1.password = du.password) ∧
    ((s.createPlantAnalysis now { da with description := .undef }).1.description = none ∧
     (s.createPlantAnalysis now { da with description := .val x }).1.description = some x ∧
     (s.createPlantAnalysis now { da with severity := .undef }).1.severity = none ∧
     (s.createPlantAnalysis now { da with severity := .val x }).1.severity = some x ∧
     (s.createPlantAnalysis now { da with treatment := .undef }).1.treatment = none ∧
     (s.createPlantAnalysis now { da with treatment := .val x }).1.treatment = some x ∧
     (s.createPlantAnalysis now { da with isHealthy := .undef }).1.isHealthy = false ∧
     (s.createPlantAnalysis now { da with isHealthy := .val b }).1.isHealthy = b ∧
     (s.createPlantAnalysis now da).1.userId = da.userId ∧
     (s.createPlantAnalysis now da).1.imagePath = da.imagePath ∧
     (s.createPlantAnalysis now da).1.diagnosis = da.diagnosis ∧
     (s.createPlantAnalysis now da).1.confidence = da.confidence) ∧
    ((s.createDiseaseReport now { dr with description := .undef }).1.description = none ∧
     (s.createDiseaseReport now { dr with description := .val x }).1.description = some x ∧
     (s.createDiseaseReport now { dr with latitude := .undef }).1.latitude = none ∧
     (s.createDiseaseReport now { dr with latitude := .val q }).1.latitude = some q ∧
     (s.createDiseaseReport now { dr with longitude := .undef }).1.longitude = none ∧
     (s.createDiseaseReport now { dr with longitude := .val q }).1.longitude = some q ∧
     (s.createDiseaseReport now dr).1.location = dr.location ∧
     (s.createDiseaseReport now dr).1.userId = dr.userId) ∧
    ((s.createUserFeedback now { df with comment := .undef }).1.comment = none ∧
     (s.createUserFeedback now { df with comment := .val x }).1.comment = some x ∧
     (s.createUserFeedback now df).1.analysisId = df.analysisId ∧
     (s.createUserFeedback now df).1.userId = df.userId) := by
  refine ⟨⟨rfl, rfl, rfl, rfl, rfl, rfl, rfl, rfl⟩,
    ⟨rfl, rfl, rfl, rfl, rfl, rfl, rfl, rfl, rfl, rfl, rfl, rfl⟩,
    ⟨rfl, rfl, rfl, rfl, rfl, rfl, rfl, rfl⟩, rfl, rfl, rfl, rfl⟩

/-- C7: for every storage state and every `analysisId`,
`createUserFeedback` succeeds and stores the feedback record even when no
plant analysis with that id exists, and the feedback route's outcome does
not depend on the stored analyses at all. -/
theorem feedback_stored_without_referential_check
    (s : MemStorage) (uid now : Nat) (b : FeedbackBody)
    (h : s.getPlantAnalysisById b.analysisId = none) :
    (handle s ⟨some uid⟩ now (.postFeedback (some b))).status = 200 ∧
    mapGet (handle s ⟨some uid⟩ now (.postFeedback (some b))).state.userFeedback
        s.currentFeedbackId =
      some { id := s.currentFeedbackId, userId := uid,
             analysisId := b.analysisId, comment := b.comment.orNull,
             createdAt := some now } ∧
    ∀ l, (handle { s with plantAnalyses := l } ⟨some uid⟩ now
            (.postFeedback (some b))).status = 200 ∧
         (handle { s with plantAnalyses := l } ⟨some uid⟩ now
            (.postFeedback (some b))).state.userFeedback =
         (handle s ⟨some uid⟩ now (.postFeedback (some b))).state.userFeedback := by
  refine ⟨rfl, ?_, fun l => ⟨rfl, rfl⟩⟩
  exact mapGet_mapSet_self s.userFeedback s.currentFeedbackId _

/-- Witness for C7: on the fresh store, which contains no analysis with id
1, posting feedback referencing analysis 1 answers 200 and stores the
record. -/
theorem feedback_stored_without_referential_check_witness :
    MemStorage.init.getPlantAnalysisById 1 = none ∧
    (handle MemStorage.init ⟨some 1⟩ 0
        (.postFeedback (some { analysisId := 1 }))).status = 200 ∧
    mapGet (handle MemStorage.init ⟨some 1⟩ 0
        (.postFeedback (some { analysisId := 1 }))).state.userFeedback 1 =
      some { id := 1, userId := 1, analysisId := 1, comment := none,
             createdAt := some 0 } :=
  ⟨rfl,
   (feedback_stored_without_referential_check MemStorage.init 1 0
     { analysisId := 1 } rfl).1,
   (feedback_stored_without_referential_check MemStorage.init 1 0
     { analysisId := 1 } rfl).2.1⟩

/-- C8: the single-analysis route enforces ownership: with an
authenticated session, `GET /api/analyses/:id` answers 404 when the
analysis does not exist or belongs to another user, and returns the
analysis with a 200 exactly when it exists and belongs to the session
user. -/
theorem analysis_by_id_enforces_ownership
    (s : MemStorage) (uid now : Nat) (idParam : Option Nat) :
    (idParam.bind s.getPlantAnalysisById = none →
      (handle s ⟨some uid⟩ now (.getAnalysisById idParam)).status = 404) ∧
    (∀ a, idParam.bind s.getPlantAnalysisById = some a → a.userId ≠ uid →
      (handle s ⟨some uid⟩ now (.getAnalysisById idParam)).status = 404) ∧
    (∀ a, idParam.bind s.getPlantAnalysisById = some a → a.userId = uid →
      (handle s ⟨some uid⟩ now (.getAnalysisById idParam)).status = 200 ∧
      (handle s ⟨some uid⟩ now (.getAnalysisById idParam)).body =
        ResponseBody.analysis a) := by
  refine ⟨fun h => ?_, fun a ha hne => ?_, fun a ha he => ?_⟩
  · simp [handle, getAnalysisByIdRoute, h]
  · simp [handle, getAnalysisByIdRoute, ha, hne]
  · simp [handle, getAnalysisByIdRoute, ha, he]

/-- A storage state holding exactly one plant analysis, with id 1, owned
by user 1. -/
def oneAnalysisState : MemStorage :=
  (MemStorage.init.createPlantAnalysis 0
    { userId := 1, imagePath := "/uploads/a.jpg", diagnosis := "Leaf Spot",
      confidence := 1 }).2

/-- Witness for C8: analysis 1 is owned by user 1, so user 2 receives 404
and user 1 receives 200 for it. -/
theorem analysis_by_id_enforces_ownership_witness :
    (some 1 : Option Nat).bind oneAnalysisState.getPlantAnalysisById =
      some { id := 1, userId := 1, imagePath := "/uploads/a.jpg",
             diagnosis := "Leaf Spot", confidence := 1, severity := none,
             isHealthy := false, description := none, treatment := none,
             createdAt := some 0 } ∧
    (handle oneAnalysisState ⟨some 2⟩ 0 (.getAnalysisById (some 1))).status = 404 ∧
    (handle oneAnalysisState ⟨some 1⟩ 0 (.getAnalysisById (some 1))).status = 200 :=
  ⟨rfl,
   (analysis_by_id_enforces_ownership oneAnalysisState 2 0 (some 1)).2.1
     _ rfl (by decide),
   ((analysis_by_id_enforces_ownership oneAnalysisState 1 0 (some 1)).2.2
     _ rfl rfl).1⟩

/-- Counterexample to C1 as stated: `GET /api/disease-reports` is a
registered API route, yet on a request whose session has no `userId` it
answers 200, not 401, and does perform its storage call. -/
theorem disease_reports_route_skips_session_check :
    (handle MemStorage.init ⟨none⟩ 0 .getDiseaseReports).status = 200 ∧
    (handle MemStorage.init ⟨none⟩ 0 .getDiseaseReports).status ≠ 401 ∧
    (handle MemStorage.init ⟨none⟩ 0 .getDiseaseReports).storageCalled = true := by
  exact ⟨rfl, by decide, rfl⟩

/-- Discriminates the routes that start with a session check from the
four that do not: the three auth routes and `GET /api/disease-reports`. -/
def ApiRequest.requiresAuth : ApiRequest → Bool
  | .signin _ => false
  | .signup _ => false
  | .signout => false
  | .getDiseaseReports => false
  | _ => true

/-- C1 amended: every registered API route except the three auth routes
(signin, signup, signout) and `GET /api/disease-reports` performs a
session check before its storage call: with no `userId` in the session it
answers 401, performs no storage operation, and leaves the store
unchanged. -/
theorem protected_routes_check_session_first
    (s : MemStorage) (now : Nat) (req : ApiRequest)
    (h : req.requiresAuth = true) :
    (handle s ⟨none⟩ now req).status = 401 ∧
    (handle s ⟨none⟩ now req).storageCalled = false ∧
    (handle s ⟨none⟩ now req).state = s := by
  cases req <;>
    simp_all [handle, ApiRequest.requiresAuth, getAuthUserRoute,
      postAnalysisRoute, getAnalysesRoute, getAnalysisByIdRoute,
      postDiseaseReportRoute, postFeedbackRoute, getStatsRoute]

/-- Witness for C1 amended: `GET /api/analyses` is a protected route and
answers 401 on the fresh store with an unauthenticated session. -/
theorem protected_routes_check_session_first_witness :
    ApiRequest.getAnalyses.requiresAuth = true ∧
    (handle MemStorage.init ⟨none⟩ 0 .getAnalyses).status = 401 :=
  ⟨rfl, (protected_routes_check_session_first MemStorage.init 0
    .getAnalyses rfl).1⟩

/-- Counterexample to C6 as stated: the per-session state read and
written by the route layer is `userId?: number`, and the routes expose
three behaviorally distinct session states (unauthenticated, user 1,
user 2) on the same request, which no single boolean value can carry. -/
theorem session_state_not_single_boolean_cex :
    (handle oneAnalysisState ⟨none⟩ 0 (.getAnalysisById (some 1))).status = 401 ∧
    (handle oneAnalysisState ⟨some 1⟩ 0 (.getAnalysisById (some 1))).status = 200 ∧
    (handle oneAnalysisState ⟨some 2⟩ 0 (.getAnalysisById (some 1))).status = 404 :=
  ⟨rfl, rfl, rfl⟩

/-- C6 amended: the per-session authentication state the route layer
reads and writes is a single optional integer `userId`, not a boolean:
whatever boolean abstraction of the session one picks, two sessions agree
on the abstraction yet receive different responses from the same
request. -/
theorem session_state_is_optional_user_id (flag : Session → Bool) :
    ∃ s1 s2 : Session, flag s1 = flag s2 ∧
      (handle oneAnalysisState s1 0 (.getAnalysisById (some 1))).status ≠
      (handle oneAnalysisState s2 0 (.getAnalysisById (some 1))).status := by
  by_cases h1 : flag ⟨none⟩ = flag ⟨some 1⟩
  · exact ⟨⟨none⟩, ⟨some 1⟩, h1, by decide⟩
  · by_cases h2 : flag ⟨none⟩ = flag ⟨some 2⟩
    · exact ⟨⟨none⟩, ⟨some 2⟩, h2, by decide⟩
    · have h3 : flag ⟨some 1⟩ = flag ⟨some 2⟩ := by
        cases ha : flag ⟨none⟩ <;> cases hb : flag ⟨some 1⟩ <;>
          cases hc : flag ⟨some 2⟩ <;> simp_all
      exact ⟨⟨some 1⟩, ⟨some 2⟩, h3, by decide⟩

/-- Witness for C6 amended: even under the natural boolean abstraction,
whether a `userId` is present, two sessions agree on the flag yet get
different responses. -/
theorem session_state_is_optional_user_id_witness :
    ∃ s1 s2 : Session,
      (fun s : Session => s.userId.isSome) s1 =
        (fun s : Session => s.userId.isSome) s2 ∧
      (handle oneAnalysisState s1 0 (.getAnalysisById (some 1))).status ≠
      (handle oneAnalysisState s2 0 (.getAnalysisById (some 1))).status :=
  session_state_is_optional_user_id (fun s => s.userId.isSome)

/-- The comparator sort used by the list queries produces a list in
descending order of the `createdAt` key (null timestamps count as 0, as
in `?.getTime() || 0`). -/
theorem sortByCreatedDesc_sorted (key : α → Option Nat) (l : List α) :
    List.Pairwise (fun a b => createdKey (key b) ≤ createdKey (key a))
      (sortByCreatedDesc key l) := by
  have htrans : ∀ a b c : α,
      (createdKey (key b) ≤ createdKey (key a) : Bool) = true →
      (createdKey (key c) ≤ createdKey (key b) : Bool) = true →
      (createdKey (key c) ≤ createdKey (key a) : Bool) = true := by
    intro a b c hab hbc
    simp only [decide_eq_true_eq] at *
    exact le_trans hbc hab
  have htotal : ∀ a b : α,
      ((createdKey (key b) ≤ createdKey (key a) : Bool) ||
       (createdKey (key a) ≤ createdKey (key b) : Bool)) = true := by
    intro a b
    simp only [Bool.or_eq_true, decide_eq_true_eq]
    exact Nat.le_total _ _
  have h := @List.sorted_mergeSort α
    (fun a b => (createdKey (key b) ≤ createdKey (key a) : Bool))
    htrans htotal l
  exact h.imp (fun hab => by simpa using hab)

/-- C10: the lists returned by `getPlantAnalysesByUser`,
`getDiseaseReports` and `getDiseaseReportsByLocation` are sorted in
descending order of the records' `createdAt` timestamps. -/
theorem list_queries_sorted_newest_first (s : MemStorage) (userId : Nat)
    (location : String) :
    List.Pairwise (fun a b => createdKey b.createdAt ≤ createdKey a.createdAt)
      (s.getPlantAnalysesByUser userId) ∧
    List.Pairwise (fun a b => createdKey b.createdAt ≤ createdKey a.createdAt)
      s.getDiseaseReports ∧
    List.Pairwise (fun a b => createdKey b.createdAt ≤ createdKey a.createdAt)
      (s.getDiseaseReportsByLocation location) :=
  ⟨sortByCreatedDesc_sorted _ _, sortByCreatedDesc_sorted _ _,
   sortByCreatedDesc_sorted _ _⟩

/-- No two stored users share a username. -/
def distinctUsernames (s : MemStorage) : Prop :=
  List.Pairwise (fun u v => u.username ≠ v.username) (mapValues s.users)

/-- The storage states reachable from the fresh store through the signup
route alone. -/
inductive SignupReachable : MemStorage → Prop where
  | init : SignupReachable MemStorage.init
  | step (s : MemStorage) (session : Session) (now : Nat)
      (body : Option SignupData) (h : SignupReachable s) :
      SignupReachable (signupRoute s session now body).state

/-- The values of a non-empty map are its first value followed by the
rest. -/
theorem mapValues_cons (p : Nat × α) (m : List (Nat × α)) :
    mapValues (p :: m) = p.2 :: mapValues m := rfl

/-- A value of the map after `Map.set` is the new value or an old one. -/
theorem mem_mapValues_mapSet {m : List (Nat × α)} {k : Nat} {v u : α}
    (h : u ∈ mapValues (mapSet m k v)) : u = v ∨ u ∈ mapValues m := by
  induction m with
  | nil =>
    simp only [mapSet] at h
    simp only [mapValues, List.map_cons, List.map_nil, List.mem_singleton] at h
    exact Or.inl h
  | cons p rest ih =>
    simp only [mapSet] at h
    by_cases hk : p.1 = k
    · rw [if_pos hk, mapValues_cons] at h
      rcases List.mem_cons.mp h with h1 | h1
      · exact Or.inl h1
      · exact Or.inr (by rw [mapValues_cons]; exact List.mem_cons_of_mem _ h1)
    · rw [if_neg hk, mapValues_cons] at h
      rcases List.mem_cons.mp h with h1 | h1
      · exact Or.inr (by rw [mapValues_cons, h1]; exact List.mem_cons_self _ _)
      · rcases ih h1 with h2 | h2
        · exact Or.inl h2
        · exact Or.inr (by rw [mapValues_cons]; exact List.mem_cons_of_mem _ h2)

/-- Writing a user whose username occurs nowhere in the map preserves
pairwise distinctness of the stored usernames. -/
theorem pairwise_usernames_mapSet (m : List (Nat × User)) (k : Nat) (v : User)
    (hnew : ∀ u ∈ mapValues m, u.username ≠ v.username)
    (hp : List.Pairwise (fun u w => u.username ≠ w.username) (mapValues m)) :
    List.Pairwise (fun u w => u.username ≠ w.username)
      (mapValues (mapSet m k v)) := by
  induction m with
  | nil => simp [mapValues, mapSet]
  | cons p rest ih =>
    rw [mapValues_cons, List.pairwise_cons] at hp
    have hnewp : p.2.username ≠ v.username :=
      hnew p.2 (by rw [mapValues_cons]; exact List.mem_cons_self _ _)
    have hnewrest : ∀ u ∈ mapValues rest, u.username ≠ v.username :=
      fun u hu => hnew u (by rw [mapValues_cons]; exact List.mem_cons_of_mem _ hu)
    simp only [mapSet]
    by_cases hk : p.1 = k
    · rw [if_pos hk, mapValues_cons, List.pairwise_cons]
      exact ⟨fun u hu => (hnewrest u hu).symm, hp.2⟩
    · rw [if_neg hk, mapValues_cons, List.pairwise_cons]
      constructor
      · intro u hu
        rcases mem_mapValues_mapSet hu with h1 | h1
        · rw [h1]; exact hnewp
        · exact hp.1 u h1
      · exact ih hnewrest hp.2

/-- When the username scan comes back empty, no stored user carries that
username. -/
theorem getUserByUsername_none (s : MemStorage) (name : String)
    (h : s.getUserByUsername name = none) :
    ∀ u ∈ mapValues s.users, u.username ≠ name := by
  rw [MemStorage.getUserByUsername, List.find?_eq_none] at h
  intro u hu
  have := h u hu
  simpa using this

/-- C2: username uniqueness is maintained by application code: every
storage state reachable from the empty store through the signup route has
pairwise distinct usernames, and whenever `getUserByUsername` finds an
existing user with the requested username, signup answers 400 with
"Username already exists" and creates no user. -/
theorem signup_maintains_username_uniqueness :
    (∀ s, SignupReachable s → distinctUsernames s) ∧
    (∀ (s : MemStorage) (session : Session) (now : Nat) (d : SignupData)
       (u : User), s.getUserByUsername d.userData.username = some u →
      (signupRoute s session now (some d)).status = 400 ∧
      (signupRoute s session now (some d)).state = s ∧
      (signupRoute s session now (some d)).body =
        ResponseBody.message "Username already exists") := by
  constructor
  · intro s h
    induction h with
    | init => simp [distinctUsernames, MemStorage.init, mapValues]
    | step s session now body h ih =>
      cases body with
      | none => simpa [signupRoute] using ih
      | some d =>
        rcases hfind : s.getUserByUsername d.userData.username with _ | u
        · simp only [signupRoute, hfind]
          exact pairwise_usernames_mapSet s.users s.currentUserId _
            (getUserByUsername_none s _ hfind) ih
        · simpa [signupRoute, hfind] using ih
  · intro s session now d u hfind
    simp [signupRoute, hfind]

/-- Witness for C2: one signup from the fresh store yields a reachable
state with distinct usernames, and a second signup with the same username
is rejected with 400 and leaves the store unchanged. -/
theorem signup_maintains_username_uniqueness_witness :
    distinctUsernames (signupRoute MemStorage.init ⟨none⟩ 0
      (some { username := "alice", password := "pw",
              confirmPassword := "pw" })).state ∧
    (signupRoute (signupRoute MemStorage.init ⟨none⟩ 0
        (some { username := "alice", password := "pw",
                confirmPassword := "pw" })).state ⟨none⟩ 1
      (some { username := "alice", password := "other",
              confirmPassword := "other" })).status = 400 :=
  ⟨signup_maintains_username_uniqueness.1 _
    (SignupReachable.step _ _ _ _ SignupReachable.init),
   (signup_maintains_username_uniqueness.2
     (signupRoute MemStorage.init ⟨none⟩ 0
       (some { username := "alice", password := "pw",
               confirmPassword := "pw" })).state ⟨none⟩ 1
     { username := "alice", password := "other", confirmPassword := "other" }
     { id := 1, username := "alice", password := "pw", email := none,
       firstName := none, lastName := none, createdAt := some 0 } rfl).1⟩

/-! ### Sequences of create calls (for the id-assignment invariant) -/

/-- The four entity kinds stored by `MemStorage`. -/
inductive Entity where
  | user
  | analysis
  | report
  | feedback
deriving Repr, DecidableEq

/-- One create call on the storage, with its input record. -/
inductive CreateOp where
  | user (now : Nat) (d : InsertUser)
  | analysis (now : Nat) (d : InsertPlantAnalysis)
  | report (now : Nat) (d : InsertDiseaseReport)
  | feedback (now : Nat) (d : InsertUserFeedback)
deriving Repr

/-- The entity kind a create call belongs to. -/
def CreateOp.entity : CreateOp → Entity
  | .user _ _ => .user
  | .analysis _ _ => .analysis
  | .report _ _ => .report
  | .feedback _ _ => .feedback

/-- Performs one create call, returning the id of the created record and
the new state. -/
def applyCreate (s : MemStorage) : CreateOp → Nat × MemStorage
  | .user now d => ((s.createUser now d).1.id, (s.createUser now d).2)
  | .analysis now d =>
      ((s.createPlantAnalysis now d).1.id, (s.createPlantAnalysis now d).2)
  | .report now d =>
      ((s.createDiseaseReport now d).1.id, (s.createDiseaseReport now d).2)
  | .feedback now d =>
      ((s.createUserFeedback now d).1.id, (s.createUserFeedback now d).2)

/-- Runs a sequence of create calls, returning the final state and the
log of created ids tagged with their entity kind, in call order. -/
def runCreates (s : MemStorage) : List CreateOp → MemStorage × List (Entity × Nat)
  | [] => (s, [])
  | op :: rest =>
    let r := applyCreate s op
    let rr := runCreates r.2 rest
    (rr.1, (op.entity, r.1) :: rr.2)

/-- The id counter of an entity kind. -/
def entityCounter (c : Entity) (s : MemStorage) : Nat :=
  match c with
  | .user => s.currentUserId
  | .analysis => s.currentAnalysisId
  | .report => s.currentReportId
  | .feedback => s.currentFeedbackId

/-- The ids a run assigned to one entity kind, in call order. -/
def idsFor (c : Entity) (log : List (Entity × Nat)) : List Nat :=
  (log.filter (fun p => p.1 = c)).map (·.2)

/-- How many create calls of a kind a sequence contains. -/
def countEntity (c : Entity) (ops : List CreateOp) : Nat :=
  (ops.filter (fun op => op.entity = c)).length

/-- The ids of the stored records of an entity kind, in insertion
order. -/
def entityIds (c : Entity) (s : MemStorage) : List Nat :=
  match c with
  | .user => (mapValues s.users).map (·.id)
  | .analysis => (mapValues s.plantAnalyses).map (·.id)
  | .report => (mapValues s.diseaseReports).map (·.id)
  | .feedback => (mapValues s.userFeedback).map (·.id)

/-- Each create call returns the current counter of its kind as the new
id. -/
theorem applyCreate_fst (s : MemStorage) (op : CreateOp) :
    (applyCreate s op).1 = entityCounter op.entity s := by
  cases op <;> rfl

/-- A create call bumps exactly the counter of its own kind. -/
theorem entityCounter_applyCreate (c : Entity) (s : MemStorage)
    (op : CreateOp) :
    entityCounter c (applyCreate s op).2 =
      if c = op.entity then entityCounter c s + 1 else entityCounter c s := by
  cases op <;> cases c <;> rfl

/-- The ids a run assigns to one entity kind are consecutive, starting at
that kind's current counter. -/
theorem idsFor_runCreates (c : Entity) :
    ∀ (ops : List CreateOp) (s : MemStorage),
      idsFor c (runCreates s ops).2 =
        List.range' (entityCounter c s) (countEntity c ops) := by
  intro ops
  induction ops with
  | nil => intro s; rfl
  | cons op rest ih =>
    intro s
    by_cases hc : op.entity = c
    · have h1 : idsFor c (runCreates s (op :: rest)).2 =
          (applyCreate s op).1 ::
            idsFor c (runCreates (applyCreate s op).2 rest).2 := by
        simp [runCreates, idsFor, hc]
      have h2 : countEntity c (op :: rest) = countEntity c rest + 1 := by
        simp [countEntity, hc]
      have h3 : entityCounter c (applyCreate s op).2 = entityCounter c s + 1 := by
        rw [entityCounter_applyCreate, if_pos hc.symm]
      rw [h1, h2, ih, h3, applyCreate_fst, hc]
      rfl
    · have h1 : idsFor c (runCreates s (op :: rest)).2 =
          idsFor c (runCreates (applyCreate s op).2 rest).2 := by
        simp [runCreates, idsFor, hc]
      have h2 : countEntity c (op :: rest) = countEntity c rest := by
        simp [countEntity, hc]
      have h3 : entityCounter c (applyCreate s op).2 = entityCounter c s := by
        rw [entityCounter_applyCreate, if_neg (fun h => hc h.symm)]
      rw [h1, h2, ih, h3]

/-- The well-formedness of one id-keyed map: each stored record carries
its key as id, every key is below the counter, and the keys are
distinct. -/
def mapInv (m : List (Nat × α)) (getId : α → Nat) (counter : Nat) : Prop :=
  (∀ p ∈ m, getId p.2 = p.1 ∧ p.1 < counter) ∧ (m.map (·.1)).Nodup

/-- A key of the map after `Map.set` is the new key or an old one. -/
theorem mem_keys_mapSet {m : List (Nat × α)} {k k' : Nat} {v : α}
    (h : k' ∈ (mapSet m k v).map (·.1)) : k' = k ∨ k' ∈ m.map (·.1) := by
  induction m with
  | nil => simpa [mapSet] using h
  | cons p rest ih =>
    simp only [mapSet] at h
    by_cases hk : p.1 = k
    · rw [if_pos hk] at h
      rcases List.mem_cons.mp h with h1 | h1
      · exact Or.inl h1
      · exact Or.inr (List.mem_cons_of_mem _ h1)
    · rw [if_neg hk, List.map_cons] at h
      rcases List.mem_cons.mp h with h1 | h1
      · exact Or.inr (by rw [List.map_cons, h1]; exact List.mem_cons_self _ _)
      · rcases ih h1 with h2 | h2
        · exact Or.inl h2
        · exact Or.inr (by rw [List.map_cons]; exact List.mem_cons_of_mem _ h2)

/-- Writing a fresh record at the current counter preserves map
well-formedness for the bumped counter. -/
theorem mapInv_set (m : List (Nat × α)) (getId : α → Nat) (counter : Nat)
    (v : α) (hv : getId v = counter) (h : mapInv m getId counter) :
    mapInv (mapSet m counter v) getId (counter + 1) := by
  induction m with
  | nil =>
    refine ⟨fun p hp => ?_, by simp [mapSet]⟩
    simp only [mapSet, List.mem_singleton] at hp
    subst hp
    exact ⟨hv, Nat.lt_succ_self _⟩
  | cons p rest ih =>
    have hp := h.1 p (List.mem_cons_self _ _)
    have hne : p.1 ≠ counter := Nat.ne_of_lt hp.2
    have hrest : mapInv rest getId counter :=
      ⟨fun q hq => h.1 q (List.mem_cons_of_mem _ hq),
       (List.nodup_cons.mp (by simpa using h.2)).2⟩
    have hih := ih hrest
    simp only [mapSet, if_neg hne]
    constructor
    · intro q hq
      rcases List.mem_cons.mp hq with h1 | h1
      · subst h1
        exact ⟨hp.1, Nat.lt_trans hp.2 (Nat.lt_succ_self _)⟩
      · exact hih.1 q h1
    · rw [List.map_cons, List.nodup_cons]
      refine ⟨fun hmem => ?_, hih.2⟩
      rcases mem_keys_mapSet hmem with h1 | h1
      · exact hne h1
      · exact (List.nodup_cons.mp (by simpa using h.2)).1 h1

/-- The joint well-formedness of the four maps of a storage state. -/
def storageInv (s : MemStorage) : Prop :=
  mapInv s.users (·.id) s.currentUserId ∧
  mapInv s.plantAnalyses (·.id) s.currentAnalysisId ∧
  mapInv s.diseaseReports (·.id) s.currentReportId ∧
  mapInv s.userFeedback (·.id) s.currentFeedbackId

/-- The fresh store is well-formed. -/
theorem storageInv_init : storageInv MemStorage.init :=
  ⟨⟨fun p hp => absurd hp (List.not_mem_nil p), List.nodup_nil⟩,
   ⟨fun p hp => absurd hp (List.not_mem_nil p), List.nodup_nil⟩,
   ⟨fun p hp => absurd hp (List.not_mem_nil p), List.nodup_nil⟩,
   ⟨fun p hp => absurd hp (List.not_mem_nil p), List.nodup_nil⟩⟩

/-- Every create call preserves well-formedness of all four maps. -/
theorem storageInv_applyCreate (s : MemStorage) (op : CreateOp)
    (h : storageInv s) : storageInv (applyCreate s op).2 := by
  cases op with
  | user now d => exact ⟨mapInv_set _ _ _ _ rfl h.1, h.2.1, h.2.2.1, h.2.2.2⟩
  | analysis now d =>
    exact ⟨h.1, mapInv_set _ _ _ _ rfl h.2.1, h.2.2.1, h.2.2.2⟩
  | report now d =>
    exact ⟨h.1, h.2.1, mapInv_set _ _ _ _ rfl h.2.2.1, h.2.2.2⟩
  | feedback now d =>
    exact ⟨h.1, h.2.1, h.2.2.1, mapInv_set _ _ _ _ rfl h.2.2.2⟩

/-- A run of create calls preserves well-formedness. -/
theorem storageInv_runCreates : ∀ (ops : List CreateOp) (s : MemStorage),
    storageInv s → storageInv (runCreates s ops).1 := by
  intro ops
  induction ops with
  | nil => exact fun s h => h
  | cons op rest ih =>
    exact fun s h => ih (applyCreate s op).2 (storageInv_applyCreate s op h)

/-- In a well-formed map, the ids of the stored records equal the keys,
hence they are distinct. -/
theorem mapInv_ids_nodup (m : List (Nat × α)) (getId : α → Nat)
    (counter : Nat) (h : mapInv m getId counter) :
    ((mapValues m).map getId).Nodup := by
  have heq : (mapValues m).map getId = m.map (·.1) := by
    rw [mapValues, List.map_map]
    exact List.map_congr_left (fun p hp => (h.1 p hp).1)
  rw [heq]
  exact h.2

/-- In a well-formed state, the stored records of every entity kind have
pairwise distinct ids. -/
theorem entityIds_nodup (c : Entity) (s : MemStorage) (h : storageInv s) :
    (entityIds c s).Nodup := by
  cases c with
  | user => exact mapInv_ids_nodup _ _ _ h.1
  | analysis => exact mapInv_ids_nodup _ _ _ h.2.1
  | report => exact mapInv_ids_nodup _ _ _ h.2.2.1
  | feedback => exact mapInv_ids_nodup _ _ _ h.2.2.2

/-- C3: starting from a fresh `MemStorage`, for every sequence of create
calls, the ids assigned to each entity kind are `1, 2, ...` in call order
(so the n-th created record of a kind receives id n), and all stored
records within a kind have pairwise distinct ids. -/
theorem creates_assign_sequential_distinct_ids (ops : List CreateOp)
    (c : Entity) :
    idsFor c (runCreates MemStorage.init ops).2 =
      List.range' 1 (countEntity c ops) ∧
    (entityIds c (runCreates MemStorage.init ops).1).Nodup := by
  constructor
  · rw [idsFor_runCreates c ops MemStorage.init]
    cases c <;> rfl
  · exact entityIds_nodup c _ (storageInv_runCreates ops _ storageInv_init)

end PlantApp
